import Mathlib

/-!
Verification development for the kikuai-bot metered API gateway.

Shallow embedding of the monetisation core: Python Decimal values stored
in Numeric(18,8) columns are modelled as integers scaled by 10^-8 USD,
unquantized Decimal inputs as rationals, database tables as lists of
rows, Redis as association lists, and each service method as a pure
function threading its state explicitly. Definitions are translated from
the Python source files named in each section. Rationals are built only
with mkRat and inspected through num and den, so every definition
evaluates by kernel reduction.
-/

/-! ## Decimal arithmetic (decimal module semantics)

The source quantizes with ROUND_HALF_EVEN to 8 fractional digits at
conversion boundaries, and stores money in Numeric(18,8) columns. A
stored amount is therefore an integer multiple of 10^-8 USD.
-/

/-- A Numeric(18,8) decimal value: an integer count of 10^-8 USD. -/
abbrev Dec8 := ℤ

/-- The scale factor between Dec8 and USD. -/
def DEC8_SCALE : ℤ := 100000000

/-- Nearest-integer division n / d for d > 0, ties to even
(Python Decimal ROUND_HALF_EVEN). -/
def roundHalfEvenDiv (n d : ℤ) : ℤ :=
  let q := Int.fdiv n d
  let r := n - q * d
  if 2 * r < d then q
  else if d < 2 * r then q + 1
  else if Even q then q else q + 1

/-- Quantize an exact rational amount to 8 fractional digits with
ROUND_HALF_EVEN: the Decimal("0.00000001") quantization used by the
ledger (ledger_balance.py line 112). -/
def quantize8 (q : ℚ) : Dec8 :=
  roundHalfEvenDiv (q.num * DEC8_SCALE) (q.den : ℤ)

/-- The exact rational value of a Dec8 amount. -/
def dec8ToRat (v : Dec8) : ℚ :=
  mkRat v 100000000

/-! ## Credits service (src/api/services/credits_service.py)

1 credit = 0.001 USD. The source validates non-negativity and raises
ValueError otherwise; the raise is modelled as Except.error.
-/

/-- Conversion rate: 1000 credits = 1 USD (credits_service.py line 11). -/
def CREDITS_PER_USD : ℤ := 1000

/-- Embeds usd_to_credits (credits_service.py lines 14 to 27): multiply
by the rate, then quantize to an integer with ROUND_HALF_EVEN. The
product usd * 1000 is the exact rational with numerator usd.num * 1000
and denominator usd.den. -/
def usd_to_credits (usd : ℚ) : Except String ℤ :=
  if usd < 0 then Except.error "USD amount cannot be negative"
  else Except.ok (roundHalfEvenDiv (usd.num * CREDITS_PER_USD) (usd.den : ℤ))

/-- Embeds credits_to_usd (credits_service.py lines 30 to 43): divide by
the rate, then quantize to 8 fractional digits with ROUND_HALF_EVEN. -/
def credits_to_usd (credits : ℤ) : Except String ℚ :=
  if credits < 0 then Except.error "Credits cannot be negative"
  else Except.ok (dec8ToRat (roundHalfEvenDiv (credits * DEC8_SCALE) CREDITS_PER_USD))

/-- The USD to credits to USD round trip of property (P5). -/
def creditsRoundTrip (usd : ℚ) : Except String ℚ :=
  (usd_to_credits usd).bind credits_to_usd

deriving instance DecidableEq for Except

/-- C9: converting each of the five spec dollar amounts (0, 0.001, 0.05,
5 and 100 USD) to credits and back is the identity on the decimal
value. -/
theorem C9_credits_roundtrip :
    creditsRoundTrip (mkRat 0 1) = Except.ok (mkRat 0 1) ∧
    creditsRoundTrip (mkRat 1 1000) = Except.ok (mkRat 1 1000) ∧
    creditsRoundTrip (mkRat 5 100) = Except.ok (mkRat 5 100) ∧
    creditsRoundTrip (mkRat 5 1) = Except.ok (mkRat 5 1) ∧
    creditsRoundTrip (mkRat 100 1) = Except.ok (mkRat 100 1) := by
  refine ⟨?_, ?_, ?_, ?_, ?_⟩ <;> decide

/-! ## Ledger (src/api/services/ledger_balance.py, src/api/db/base.py)

Accounts are keyed by telegram id; get_account_by_tg_id creates a
missing account with balance 0, so balances are modelled as a total
function with default 0. Transactions and usage logs are the two
append-only tables. The unique constraint on
Transaction.idempotency_key (db/base.py line 84) makes a commit that
inserts a duplicate key raise IntegrityError.
-/

/-- A row of the transactions table (db/base.py lines 76 to 88). -/
structure LTxn where
  account : ℕ
  amount : Dec8
  type : String
  product : Option String
  key : String
  description : String
deriving DecidableEq, Repr

/-- A row of the usage_logs table (db/base.py lines 90 to 101). -/
structure UsageRow where
  account : ℕ
  product : String
  units : ℕ
  cost : Dec8
deriving DecidableEq, Repr

/-- The committed database state seen by the ledger service. -/
structure LedgerState where
  balance : ℕ → Dec8
  txns : List LTxn
  logs : List UsageRow

/-- Whether some transaction row carries the given idempotency key: the
SELECT of ledger_balance.py lines 100 to 102, and the predicate behind
the unique constraint. -/
def hasKey (txns : List LTxn) (key : String) : Bool :=
  txns.any (fun t => t.key == key)

/-- Invariant (P2): no two transaction rows share an idempotency key. -/
def keysDistinct (σ : LedgerState) : Prop :=
  (σ.txns.map (fun t => t.key)).Nodup

instance (σ : LedgerState) : Decidable (keysDistinct σ) := by
  unfold keysDistinct; infer_instance

/-- Pointwise update of the balance column for one account. -/
def setBalance (f : ℕ → Dec8) (tg : ℕ) (v : Dec8) : ℕ → Dec8 :=
  fun a => if a = tg then v else f a

/-- Outcome of record_usage: the returned balance, or the raised
ValueError("Insufficient balance (Prepaid Hard-Stop)", "BALANCE_EXHAUSTED"). -/
inductive DebitResult where
  | ok (newBalance : Dec8)
  | insufficientBalance
deriving DecidableEq, Repr

/-- Embeds LedgerBalanceService.record_usage (ledger_balance.py lines 85
to 173). Step 1 short-circuits on an existing idempotency key. Step 3
quantizes cost to 8 digits half-even. Step 4 raises on balance < cost
before any row is written. Otherwise a UsageLog row, a Transaction row
with the negated cost, and the balance update commit together. The
conflict argument is the commit-time race oracle: some dbState means
another writer committed a row with this key after our step-1 check, the
commit raises IntegrityError against dbState, and lines 170 to 173 roll
back and return the freshly read balance. -/
def record_usage (σ : LedgerState) (conflict : Option LedgerState) (tg : ℕ)
    (pid : String) (units : ℕ) (cost : ℚ) (key : String) :
    DebitResult × LedgerState :=
  if hasKey σ.txns key then
    (DebitResult.ok (σ.balance tg), σ)
  else
    let cost_dec := quantize8 cost
    if σ.balance tg < cost_dec then
      (DebitResult.insufficientBalance, σ)
    else
      match conflict with
      | some σc => (DebitResult.ok (σc.balance tg), σc)
      | none =>
          let usage : UsageRow := ⟨tg, pid, units, cost_dec⟩
          let tx : LTxn := ⟨tg, -cost_dec, "usage", some pid, key,
            "Usage: " ++ pid ++ " (" ++ toString units ++ " units)"⟩
          (DebitResult.ok (σ.balance tg - cost_dec),
            ⟨setBalance σ.balance tg (σ.balance tg - cost_dec),
              tx :: σ.txns, usage :: σ.logs⟩)

/-- Outcome of add_funds: the returned balance, or the raised
ValueError("Transaction ... already processed."). -/
inductive CreditResult where
  | ok (newBalance : Dec8)
  | alreadyProcessed (key : String)
deriving DecidableEq, Repr

/-- Embeds LedgerBalanceService.add_funds (ledger_balance.py lines 50 to
83): insert a topup Transaction row and add the amount to the balance in
one commit; on IntegrityError from the idempotency key unique
constraint, roll back and raise ValueError. -/
def add_funds (σ : LedgerState) (tg : ℕ) (amount : Dec8)
    (key descr : String) : CreditResult × LedgerState :=
  if hasKey σ.txns key then
    (CreditResult.alreadyProcessed key, σ)
  else
    (CreditResult.ok (σ.balance tg + amount),
      ⟨setBalance σ.balance tg (σ.balance tg + amount),
        ⟨tg, amount, "topup", none, key, descr⟩ :: σ.txns, σ.logs⟩)

/-- A false hasKey means no row in the list carries the key. -/
theorem hasKey_eq_false_iff (txns : List LTxn) (key : String) :
    hasKey txns key = false ↔ ∀ t ∈ txns, t.key ≠ key := by
  simp [hasKey]

/-- C1: with no prior row for the key, a debit against a balance
strictly below the quantized cost aborts with the insufficient-balance
error and leaves the whole ledger state, transactions, usage logs and
balances alike, unchanged; and record_usage never drives a nonnegative
balance negative. -/
theorem C1_insufficient_balance_aborts (σ : LedgerState) (tg a : ℕ)
    (pid : String) (units : ℕ) (cost : ℚ) (key : String)
    (hkey : hasKey σ.txns key = false) :
    (σ.balance tg < quantize8 cost →
      record_usage σ none tg pid units cost key =
        (DebitResult.insufficientBalance, σ)) ∧
    (0 ≤ σ.balance a →
      0 ≤ (record_usage σ none tg pid units cost key).2.balance a) := by
  constructor
  · intro hlt
    simp [record_usage, hkey, hlt]
  · intro ha
    by_cases hlt : σ.balance tg < quantize8 cost
    · simpa [record_usage, hkey, hlt] using ha
    · simp only [record_usage, hkey, Bool.false_eq_true, if_false, hlt, if_true]
      by_cases haeq : a = tg
      · subst haeq
        simp [setBalance, Int.sub_nonneg.mpr (not_lt.mp hlt)]
      · simpa [setBalance, haeq] using ha

/-- Witness for C1 at scenario 1 of the spec: balance 0.04 USD, cost
0.05 USD. -/
def ledgerWitness1 : LedgerState :=
  ⟨fun _ => 4000000, [], []⟩

theorem C1_insufficient_balance_aborts_witness :
    record_usage ledgerWitness1 none 1 "chart2csv" 1 (mkRat 5 100) "key1" =
      (DebitResult.insufficientBalance, ledgerWitness1) ∧
    0 ≤ (record_usage ledgerWitness1 none 1 "chart2csv" 1 (mkRat 5 100)
      "key1").2.balance 1 :=
  ⟨(C1_insufficient_balance_aborts ledgerWitness1 1 1 "chart2csv" 1
      (mkRat 5 100) "key1" (by decide)).1 (by decide),
   (C1_insufficient_balance_aborts ledgerWitness1 1 1 "chart2csv" 1
      (mkRat 5 100) "key1" (by decide)).2 (by decide)⟩

/-- C2: a debit whose idempotency key already has a transaction row
returns the current balance and changes nothing; when a concurrent
writer commits the key first, the uniqueness conflict rolls our write
back, the state is exactly what that writer left, and the freshly read
balance is returned; and record_usage preserves the at-most-one-row-per-
key invariant. -/
theorem C2_idempotency_unique_key (σ : LedgerState)
    (conflict : Option LedgerState) (tg : ℕ) (pid : String) (units : ℕ)
    (cost : ℚ) (key : String) :
    (hasKey σ.txns key = true →
      record_usage σ conflict tg pid units cost key =
        (DebitResult.ok (σ.balance tg), σ)) ∧
    (∀ σc, conflict = some σc → hasKey σ.txns key = false →
      ¬ σ.balance tg < quantize8 cost →
      record_usage σ conflict tg pid units cost key =
        (DebitResult.ok (σc.balance tg), σc)) ∧
    (keysDistinct σ → (∀ σc, conflict = some σc → keysDistinct σc) →
      keysDistinct (record_usage σ conflict tg pid units cost key).2) := by
  refine ⟨fun hkey => by simp [record_usage, hkey], ?_, ?_⟩
  · intro σc hc hkey hbal
    subst hc
    simp [record_usage, hkey, hbal]
  · intro hσ hconf
    by_cases hkey : hasKey σ.txns key
    · simpa [record_usage, hkey] using hσ
    · by_cases hbal : σ.balance tg < quantize8 cost
      · simpa [record_usage, hkey, hbal] using hσ
      · cases hcase : conflict with
        | some σc =>
            simpa [record_usage, hkey, hbal] using hconf σc hcase
        | none =>
            have hmem := (hasKey_eq_false_iff σ.txns key).mp
              (by simpa using hkey)
            simp only [record_usage, hkey, Bool.false_eq_true, if_false,
              hbal, if_true]
            refine List.Nodup.cons ?_ hσ
            intro hkmem
            rcases List.mem_map.mp hkmem with ⟨t, htmem, htk⟩
            exact hmem t htmem htk

/-- A prior ledger with a transaction under key dup for account 7. -/
def ledgerWitness2 : LedgerState :=
  ⟨fun _ => 10000000,
   [⟨7, -100000, "usage", some "masker", "dup", "Usage: masker (1 units)"⟩],
   []⟩

/-- An empty prior ledger with balance 0.1 USD everywhere. -/
def ledgerWitness3 : LedgerState :=
  ⟨fun _ => 10000000, [], []⟩

theorem C2_idempotency_unique_key_witness :
    record_usage ledgerWitness2 none 7 "masker" 1 (mkRat 1 1000) "dup" =
      (DebitResult.ok (ledgerWitness2.balance 7), ledgerWitness2) ∧
    record_usage ledgerWitness3 (some ledgerWitness2) 7 "masker" 1
      (mkRat 1 1000) "dup2" =
      (DebitResult.ok (ledgerWitness2.balance 7), ledgerWitness2) ∧
    keysDistinct (record_usage ledgerWitness3 none 7 "masker" 1
      (mkRat 1 1000) "dup2").2 :=
  ⟨(C2_idempotency_unique_key ledgerWitness2 none 7 "masker" 1
      (mkRat 1 1000) "dup").1 (by decide),
   (C2_idempotency_unique_key ledgerWitness3 (some ledgerWitness2) 7
      "masker" 1 (mkRat 1 1000) "dup2").2.1 ledgerWitness2 rfl
      (by decide) (by decide),
   (C2_idempotency_unique_key ledgerWitness3 none 7 "masker" 1
      (mkRat 1 1000) "dup2").2.2 (by decide) (fun σc h => nomatch h)⟩

/-- A ledger already holding a topup transaction under key k. -/
def ledgerWitness4 : LedgerState :=
  ⟨fun _ => 700000000,
   [⟨1, 500000000, "topup", none, "k", "Top up"⟩], []⟩

/-- C3 counterexample: replaying add_funds with the existing key k does
not return the current balance of the account; the source instead rolls
back and raises ValueError("Transaction k already processed."). -/
theorem C3_add_funds_counterexample :
    (add_funds ledgerWitness4 1 500000000 "k" "Top up").1 ≠
      CreditResult.ok (ledgerWitness4.balance 1) := by
  decide

/-- C3 amended: on an idempotency-key collision, add_funds rolls the
transaction back, leaving the ledger unchanged, and raises a ValueError
naming the key; it does not look the existing transaction up and does
not return the current balance. -/
theorem C3_add_funds_collision_raises (σ : LedgerState) (tg : ℕ)
    (amount : Dec8) (key descr : String)
    (hkey : hasKey σ.txns key = true) :
    add_funds σ tg amount key descr =
      (CreditResult.alreadyProcessed key, σ) := by
  simp [add_funds, hkey]

theorem C3_add_funds_collision_raises_witness :
    add_funds ledgerWitness4 1 500000000 "k" "Top up" =
      (CreditResult.alreadyProcessed "k", ledgerWitness4) :=
  C3_add_funds_collision_raises ledgerWitness4 1 500000000 "k" "Top up"
    (by decide)

/-! ## Free tier quota engine (src/api/services/free_tier_service.py)

Counters live in Redis, modelled as an association list from key to
integer value. The current instant enters through a UTC date (the source
mixes date.today() and datetime.utcnow(); one clock is assumed) and the
account age enters as the computed whole-day difference used by
_is_in_progressive_period.
-/

/-- A calendar date as rendered into counter keys and reset strings. -/
structure UtcDate where
  year : ℕ
  month : ℕ
  day : ℕ
deriving DecidableEq, Repr

/-- Two-digit zero padding of strftime. -/
def pad2 (n : ℕ) : String :=
  if n < 10 then "0" ++ toString n else toString n

/-- date.isoformat(): YYYY-MM-DD. -/
def isoDate (d : UtcDate) : String :=
  toString d.year ++ "-" ++ pad2 d.month ++ "-" ++ pad2 d.day

/-- strftime("%Y-%m"): the monthly counter window. -/
def isoMonth (d : UtcDate) : String :=
  toString d.year ++ "-" ++ pad2 d.month

/-- Daily and monthly limits for a product (free_tier_service.py lines
31 to 34). -/
structure FreeTierLimits where
  daily : ℤ
  monthly : ℤ
deriving DecidableEq, Repr

/-- The FREE_TIER_LIMITS dict (free_tier_service.py lines 49 to 54). -/
def FREE_TIER_LIMITS (product_id : String) : Option FreeTierLimits :=
  if product_id = "chart2csv" then some ⟨3, 50⟩
  else if product_id = "masker" then some ⟨100, 2000⟩
  else if product_id = "patas" then some ⟨100, 10000⟩
  else if product_id = "reliapi" then some ⟨1000, 10000⟩
  else none

/-- Embeds _is_in_progressive_period (lines 88 to 94): none models a
service with no account start date set. -/
def _is_in_progressive_period (daysSinceStart : Option ℤ) : Bool :=
  match daysSinceStart with
  | none => false
  | some d => d < 7

/-- Embeds _get_limits (lines 96 to 107): dictionary default 10 and
100, then the 50 percent reduction with minimum 1 for new accounts.
int(x * 0.5) on these nonnegative limits is floor division by 2. -/
def _get_limits (product_id : String) (daysSinceStart : Option ℤ) :
    FreeTierLimits :=
  let base := (FREE_TIER_LIMITS product_id).getD ⟨10, 100⟩
  if _is_in_progressive_period daysSinceStart then
    ⟨max 1 (base.daily / 2), max 1 (base.monthly / 2)⟩
  else base

/-- Redis key for the daily counter (lines 126 to 129). -/
def _daily_key (product_id identifier : String) (today : UtcDate) : String :=
  "free:" ++ product_id ++ ":" ++ identifier ++ ":daily:" ++ isoDate today

/-- Redis key for the monthly counter (lines 131 to 134). -/
def _monthly_key (product_id identifier : String) (today : UtcDate) : String :=
  "free:" ++ product_id ++ ":" ++ identifier ++ ":monthly:" ++ isoMonth today

/-- Embeds _daily_reset_time (lines 136 to 139). The local variable
named tomorrow in the source holds date.today().isoformat(), so the
rendered instant is the midnight that began the current day. -/
def _daily_reset_time (today : UtcDate) : String :=
  isoDate today ++ "T00:00:00Z"

/-- Embeds _monthly_reset_time (lines 141 to 148): the first of the
following month. -/
def _monthly_reset_time (now : UtcDate) : String :=
  let next : UtcDate :=
    if now.month = 12 then ⟨now.year + 1, 1, 1⟩
    else ⟨now.year, now.month + 1, 1⟩
  isoDate next ++ "T00:00:00Z"

/-- The Redis counter store: counter key to integer value. -/
abbrev RedisStore := List (String × ℤ)

/-- The NamedTuple returned by check_limit (lines 37 to 45). -/
structure FreeTierResult where
  allowed : Bool
  remaining_daily : ℤ
  remaining_monthly : ℤ
  limit_daily : ℤ
  limit_monthly : ℤ
  resets_at_daily : String
  resets_at_monthly : String
deriving DecidableEq, Repr

/-- Embeds FreeTierService.check_limit (lines 150 to 197): read both
counters with GET (an absent key counts as zero), compute remaining
values clamped at zero, and admit iff both windows have room for the
requested units. The store is returned as well to make explicit that
the method only reads it. -/
def check_limit (σ : RedisStore) (product_id identifier : String)
    (units : ℤ) (daysSinceStart : Option ℤ) (today : UtcDate) :
    FreeTierResult × RedisStore :=
  let limits := _get_limits product_id daysSinceStart
  let daily_used := (σ.lookup (_daily_key product_id identifier today)).getD 0
  let monthly_used := (σ.lookup (_monthly_key product_id identifier today)).getD 0
  let remaining_daily := max 0 (limits.daily - daily_used)
  let remaining_monthly := max 0 (limits.monthly - monthly_used)
  let allowed := decide (daily_used + units ≤ limits.daily) &&
    decide (monthly_used + units ≤ limits.monthly)
  (⟨allowed, remaining_daily, remaining_monthly, limits.daily,
    limits.monthly, _daily_reset_time today, _monthly_reset_time today⟩, σ)

/-- C6: check_limit admits exactly when both the daily and the monthly
counter leave room for the requested units under the effective limits,
and it leaves the counter store untouched. -/
theorem C6_check_limit_admission (σ : RedisStore)
    (product_id identifier : String) (units : ℤ)
    (daysSinceStart : Option ℤ) (today : UtcDate) :
    ((check_limit σ product_id identifier units daysSinceStart
        today).1.allowed = true ↔
      ((σ.lookup (_daily_key product_id identifier today)).getD 0 + units ≤
          (_get_limits product_id daysSinceStart).daily ∧
        (σ.lookup (_monthly_key product_id identifier today)).getD 0 + units ≤
          (_get_limits product_id daysSinceStart).monthly)) ∧
    (check_limit σ product_id identifier units daysSinceStart today).2 = σ := by
  constructor
  · simp [check_limit]
  · rfl

/-- C7: on a request made during 2026-10-12 the reported daily reset
instant is the midnight that began 2026-10-12, which is not strictly
after the request, instead of the next UTC midnight 2026-10-13T00:00:00Z
promised by the docstring and the spec. -/
theorem C7_daily_reset_not_next_midnight :
    (check_limit [] "chart2csv" "1.2.3.4" 1 none
        ⟨2026, 10, 12⟩).1.resets_at_daily = "2026-10-12T00:00:00Z" ∧
    (check_limit [] "chart2csv" "1.2.3.4" 1 none
        ⟨2026, 10, 12⟩).1.resets_at_daily ≠ "2026-10-13T00:00:00Z" := by
  refine ⟨?_, ?_⟩ <;> decide

/-! ## Payment engine webhooks (src/api/services/payment_engine.py,
src/api/routes/webhooks.py)

PaymentEngine receives its balance manager by injection (the ABC of
payment_engine.py lines 208 to 233), so the engine is modelled over an
abstract state type and abstract functions for the injected calls.
-/

/-- The Transaction dataclass of the payment engine (payment_engine.py
lines 87 to 113), distinct from the ledger table row. -/
structure PTxn where
  id : String
  user_id : ℤ
  type : String
  amount_usd : ℚ
  source : String
  external_id : String
deriving DecidableEq, Repr

/-- The WebhookEvent dataclass (payment_engine.py lines 116 to 125); the
data dict fields read by the Stars provider are inlined. -/
structure WEvent where
  provider : String
  event_type : String
  event_id : String
  user_id : Option ℤ
  payload : String
  total_amount : ℤ
  charge_id : String
deriving DecidableEq, Repr

/-- The PaymentError subclasses surfaced by process_webhook. -/
inductive EngineError where
  | invalidSignature
  | processingError (msg : String)
deriving DecidableEq, Repr

/-- Embeds PaymentEngine.process_webhook (payment_engine.py lines 325 to
377) over the injected provider and balance manager: verify the
signature first, then consult idempotency, then let the provider parse
the event, then update the balance. A failed verification raises
InvalidSignatureError before any other call, so the state passes
through untouched. Notifications are external side effects and carry no
state. -/
def engineProcessWebhook {σT : Type}
    (verifyWebhook : WEvent → Bool)
    (checkIdempotency : σT → String → Bool)
    (providerProcess : WEvent → σT → Option PTxn × σT)
    (updateBalance : PTxn → String → σT → ℚ × σT)
    (σ : σT) (e : WEvent) : Except EngineError (Option PTxn) × σT :=
  if !(verifyWebhook e) then (Except.error EngineError.invalidSignature, σ)
  else if checkIdempotency σ e.event_id then (Except.ok none, σ)
  else
    match providerProcess e σ with
    | (none, σ1) => (Except.ok none, σ1)
    | (some t, σ1) =>
        let step := updateBalance t e.event_id σ1
        (Except.ok (some t), step.2)

/-- An HTTP response as produced by a webhook route handler. -/
structure HttpResp where
  status : ℕ
  body : List (String × String)
deriving DecidableEq, Repr

/-- Embeds the response mapping of handle_paddle_webhook (webhooks.py
lines 79 to 116): InvalidSignatureError becomes HTTP 200 with an error
body so that Paddle stops retrying; other exceptions become 500. -/
def paddleRouteRespond (r : Except EngineError (Option PTxn)) : HttpResp :=
  match r with
  | Except.ok (some t) =>
      ⟨200, [("status", "processed"), ("transaction_id", t.id)]⟩
  | Except.ok none =>
      ⟨200, [("status", "ignored"),
        ("message", "Event already processed or not applicable")]⟩
  | Except.error EngineError.invalidSignature =>
      ⟨200, [("status", "error"), ("message", "Invalid signature")]⟩
  | Except.error (EngineError.processingError m) =>
      ⟨500, [("detail", "Processing error: " ++ m)]⟩

/-- Embeds the response mapping of handle_lemonsqueezy_webhook
(webhooks.py lines 188 to 223): InvalidSignatureError becomes HTTP
403. -/
def lemonRouteRespond (r : Except EngineError (Option PTxn)) : HttpResp :=
  match r with
  | Except.ok (some t) =>
      ⟨200, [("status", "processed"), ("transaction_id", t.id)]⟩
  | Except.ok none =>
      ⟨200, [("status", "ignored"),
        ("message", "Event already processed or not applicable")]⟩
  | Except.error EngineError.invalidSignature =>
      ⟨403, [("detail", "Invalid signature")]⟩
  | Except.error (EngineError.processingError m) =>
      ⟨500, [("detail", "Processing error: " ++ m)]⟩

/-- C4: when signature verification fails, process_webhook raises
InvalidSignatureError with the engine state untouched, before the
idempotency lookup, the provider processing and any balance update; the
Paddle route then answers 200 with the error body and the LemonSqueezy
route answers 403. -/
theorem C4_invalid_signature_no_mutation {σT : Type}
    (verifyWebhook : WEvent → Bool) (checkIdempotency : σT → String → Bool)
    (providerProcess : WEvent → σT → Option PTxn × σT)
    (updateBalance : PTxn → String → σT → ℚ × σT) (σ : σT) (e : WEvent)
    (h : verifyWebhook e = false) :
    engineProcessWebhook verifyWebhook checkIdempotency providerProcess
        updateBalance σ e = (Except.error EngineError.invalidSignature, σ) ∧
    paddleRouteRespond (engineProcessWebhook verifyWebhook checkIdempotency
        providerProcess updateBalance σ e).1 =
      ⟨200, [("status", "error"), ("message", "Invalid signature")]⟩ ∧
    lemonRouteRespond (engineProcessWebhook verifyWebhook checkIdempotency
        providerProcess updateBalance σ e).1 =
      ⟨403, [("detail", "Invalid signature")]⟩ := by
  refine ⟨by simp [engineProcessWebhook, h], ?_, ?_⟩ <;>
    simp [engineProcessWebhook, h, paddleRouteRespond, lemonRouteRespond]

/-- A concrete tampered webhook event. -/
def tamperedEvent : WEvent :=
  ⟨"paddle", "transaction.completed", "evt_42", none, "", 0, ""⟩

theorem C4_invalid_signature_no_mutation_witness :
    @engineProcessWebhook ℕ (fun _ => false) (fun _ _ => false)
        (fun _ s => (none, s)) (fun _ _ s => (mkRat 0 1, s)) 0 tamperedEvent =
      (Except.error EngineError.invalidSignature, 0) ∧
    paddleRouteRespond (@engineProcessWebhook ℕ (fun _ => false)
        (fun _ _ => false) (fun _ s => (none, s))
        (fun _ _ s => (mkRat 0 1, s)) 0 tamperedEvent).1 =
      ⟨200, [("status", "error"), ("message", "Invalid signature")]⟩ ∧
    lemonRouteRespond (@engineProcessWebhook ℕ (fun _ => false)
        (fun _ _ => false) (fun _ s => (none, s))
        (fun _ _ s => (mkRat 0 1, s)) 0 tamperedEvent).1 =
      ⟨403, [("detail", "Invalid signature")]⟩ :=
  C4_invalid_signature_no_mutation (fun _ => false) (fun _ _ => false)
    (fun _ s => (none, s)) (fun _ _ s => (mkRat 0 1, s)) 0 tamperedEvent rfl

/-! ## Telegram Stars provider (src/api/services/payment_engine.py,
TelegramStarsProvider)
-/

/-- A PendingInvoice stored under pending_stars:<payload>
(payment_engine.py lines 1014 to 1024). -/
structure PendingData where
  user_id : ℤ
  stars : ℤ
  usd : ℚ
  idempotency_key : String
  created_at : ℤ
deriving DecidableEq, Repr

/-- The Redis keyspace of pending star invoices. -/
abbrev StarsStore := List (String × PendingData)

/-- Conversion rate 1 USD = 50 Stars (payment_engine.py line 958). -/
def USD_TO_STARS_RATE : ℕ := 50

/-- Embeds TelegramStarsProvider.stars_to_usd (payment_engine.py lines
973 to 976). -/
def stars_to_usd (stars : ℤ) : ℚ :=
  mkRat stars USD_TO_STARS_RATE

/-- Embeds TelegramStarsProvider.process_webhook (payment_engine.py
lines 1065 to 1137). A missing user id yields no transaction. With
Redis available and a stored PendingInvoice for the payload, line 1106
compares the stored account id with the paying user but only logs a
warning on mismatch and control continues: the stored USD amount
replaces the stars conversion, the pending record is deleted, and a
TOPUP transaction is returned in every case. Without a pending record
the stars amount is converted at the configured rate. txid stands for
the random txn_stars id generated at line 1119. -/
def starsProcessWebhook (hasRedis : Bool) (σ : StarsStore) (e : WEvent)
    (txid : String) : Option PTxn × StarsStore :=
  match e.user_id with
  | none => (none, σ)
  | some uid =>
      let usd0 := stars_to_usd e.total_amount
      if hasRedis then
        let pending_key := "pending_stars:" ++ e.payload
        match σ.lookup pending_key with
        | some p =>
            (some ⟨txid, uid, "topup", p.usd, "telegram_stars", e.charge_id⟩,
              σ.filter (fun q => !(q.1 == pending_key)))
        | none =>
            (some ⟨txid, uid, "topup", usd0, "telegram_stars", e.charge_id⟩, σ)
      else
        (some ⟨txid, uid, "topup", usd0, "telegram_stars", e.charge_id⟩, σ)

/-- A pending invoice created for account 1. -/
def starsStoreMismatch : StarsStore :=
  [("pending_stars:topup:1:1700000000:abcd1234",
    ⟨1, 250, mkRat 5 1, "idem1", 1700000000⟩)]

/-- A successful_payment callback whose payer is account 2, not the
account 1 recorded in the invoice. -/
def starsEventMismatch : WEvent :=
  ⟨"telegram_stars", "successful_payment", "evt_stars_1", some 2,
    "topup:1:1700000000:abcd1234", 250, "chg_1"⟩

/-- C5 counterexample: with the stored invoice naming account 1 and the
paying user being account 2, process_webhook still returns a TOPUP
transaction crediting the payer, instead of rejecting the event. -/
theorem C5_stars_mismatch_counterexample :
    (starsProcessWebhook true starsStoreMismatch starsEventMismatch
        "txid5").1 =
      some ⟨"txid5", 2, "topup", mkRat 5 1, "telegram_stars", "chg_1"⟩ := by
  decide

/-- C5 amended: whenever a PendingInvoice exists for the payload,
process_webhook reads it, deletes it, and produces a TOPUP transaction
for the paying user over the stored USD amount, regardless of whether
the account recorded in the invoice matches the payer; a mismatch is
only logged as a warning. -/
theorem C5_stars_pending_consumed (σ : StarsStore) (e : WEvent) (uid : ℤ)
    (p : PendingData) (txid : String) (hu : e.user_id = some uid)
    (hp : σ.lookup ("pending_stars:" ++ e.payload) = some p) :
    starsProcessWebhook true σ e txid =
      (some ⟨txid, uid, "topup", p.usd, "telegram_stars", e.charge_id⟩,
        σ.filter (fun q => !(q.1 == "pending_stars:" ++ e.payload))) := by
  simp [starsProcessWebhook, hu, hp]

/-- A matching successful_payment callback from account 1. -/
def starsEventMatch : WEvent :=
  ⟨"telegram_stars", "successful_payment", "evt_stars_2", some 1,
    "topup:1:1700000000:abcd1234", 250, "chg_2"⟩

theorem C5_stars_pending_consumed_witness :
    starsProcessWebhook true starsStoreMismatch starsEventMatch "txid6" =
      (some ⟨"txid6", 1, "topup", mkRat 5 1, "telegram_stars", "chg_2"⟩,
        starsStoreMismatch.filter
          (fun q => !(q.1 == "pending_stars:" ++ starsEventMatch.payload))) :=
  C5_stars_pending_consumed starsStoreMismatch starsEventMatch 1
    ⟨1, 250, mkRat 5 1, "idem1", 1700000000⟩ "txid6" (by decide) (by decide)

/-! ## Gateway upstream dispatch (src/api/routes/chart2csv.py,
src/api/routes/masker.py)
-/

/-- An HTTP response received from the upstream product service. -/
structure UpstreamResp where
  status : ℕ
  contentTypeJson : Bool
  body : String
deriving DecidableEq, Repr

/-- Upstream dispatch outcome: a response, or an httpx.RequestError. -/
inductive UpstreamOutcome where
  | resp (r : UpstreamResp)
  | transportError (msg : String)
deriving DecidableEq, Repr

/-- Detail payload of the HTTPException raised by the routes. -/
inductive ErrorDetail where
  | jsonDetail (body : String)
  | textDetail (body : String)
  | serviceUnavailable (message : String)
deriving DecidableEq, Repr

/-- Embeds the upstream forwarding of extract_chart (chart2csv.py lines
104 to 128) and of redact_pii (masker.py lines 117 to 153): a non-200
upstream status raises an HTTPException that reuses the upstream status
code and carries the upstream JSON body when the content type is JSON,
else its text; only a transport failure raises 503 with code
SERVICE_UNAVAILABLE. -/
def dispatchUpstream (u : UpstreamOutcome) :
    Except (ℕ × ErrorDetail) UpstreamResp :=
  match u with
  | UpstreamOutcome.resp r =>
      if r.status ≠ 200 then
        Except.error (r.status,
          if r.contentTypeJson then ErrorDetail.jsonDetail r.body
          else ErrorDetail.textDetail r.body)
      else Except.ok r
  | UpstreamOutcome.transportError m =>
      Except.error (503, ErrorDetail.serviceUnavailable m)

/-- The HTTP status the gateway response takes. -/
def upstreamRespStatus (x : Except (ℕ × ErrorDetail) UpstreamResp) : ℕ :=
  match x with
  | Except.error e => e.1
  | Except.ok r => r.status

/-- C8 counterexample: an upstream 500 with a text body is passed
through as a 500 gateway response, not mapped to 503
SERVICE_UNAVAILABLE. -/
theorem C8_5xx_passthrough_counterexample :
    upstreamRespStatus (dispatchUpstream
        (UpstreamOutcome.resp ⟨500, false, "boom"⟩)) = 500 ∧
    upstreamRespStatus (dispatchUpstream
        (UpstreamOutcome.resp ⟨500, false, "boom"⟩)) ≠ 503 := by
  refine ⟨?_, ?_⟩ <;> decide

/-- C8 amended: every non-200 upstream status, the 5xx range included,
is passed through verbatim with the upstream JSON body when present,
else its text; 503 with SERVICE_UNAVAILABLE arises only from transport
errors (connection failures and timeouts). -/
theorem C8_upstream_error_mapping (r : UpstreamResp) (m : String)
    (h : r.status ≠ 200) :
    dispatchUpstream (UpstreamOutcome.resp r) =
      Except.error (r.status,
        if r.contentTypeJson then ErrorDetail.jsonDetail r.body
        else ErrorDetail.textDetail r.body) ∧
    dispatchUpstream (UpstreamOutcome.transportError m) =
      Except.error (503, ErrorDetail.serviceUnavailable m) := by
  exact ⟨by simp [dispatchUpstream, h], rfl⟩

theorem C8_upstream_error_mapping_witness :
    dispatchUpstream (UpstreamOutcome.resp ⟨404, true, "nf"⟩) =
      Except.error (404, ErrorDetail.jsonDetail "nf") ∧
    dispatchUpstream (UpstreamOutcome.transportError "down") =
      Except.error (503, ErrorDetail.serviceUnavailable "down") := by
  have h := C8_upstream_error_mapping ⟨404, true, "nf"⟩ "down" (by decide)
  exact ⟨h.1, h.2⟩

/-! ## Access token verification (src/api/services/auth_service.py)

jwt.encode and jwt.decode with HS256 are modelled over an abstract MAC
function signFn from secret and claims to the signature. jwt.decode
rejects a wrong signature as InvalidTokenError and a passed exp claim
as ExpiredSignatureError, and otherwise yields the claims.
-/

/-- The claims payload written by create_access_token (auth_service.py
lines 56 to 65); typ models the claim named type. -/
structure JwtClaims where
  sub : String
  tid : Option ℤ
  typ : String
  exp : ℤ
  iat : ℤ
deriving DecidableEq, Repr

/-- A compact token: claims plus signature. -/
structure JwtToken where
  claims : JwtClaims
  sig : String
deriving DecidableEq, Repr

/-- The jwt.decode outcomes distinguished by verify_access_token. -/
inductive JwtDecodeResult where
  | ok (claims : JwtClaims)
  | expired
  | invalid
deriving DecidableEq, Repr

/-- PyJWT jwt.decode against the server secret, over the abstract MAC
signFn. -/
def jwtDecode (signFn : String → JwtClaims → String) (secret : String)
    (now : ℤ) (t : JwtToken) : JwtDecodeResult :=
  if t.sig ≠ signFn secret t.claims then JwtDecodeResult.invalid
  else if t.claims.exp ≤ now then JwtDecodeResult.expired
  else JwtDecodeResult.ok t.claims

/-- The UserInfo model (auth_service.py lines 40 to 44). -/
structure UserInfo where
  account_id : String
  telegram_id : Option ℤ
deriving DecidableEq, Repr

/-- Embeds AuthService.verify_access_token (auth_service.py lines 97 to
113): decode the token, reject it unless the type claim equals access,
and map both decode exceptions to None. -/
def verify_access_token (signFn : String → JwtClaims → String)
    (secret : String) (now : ℤ) (t : JwtToken) : Option UserInfo :=
  match jwtDecode signFn secret now t with
  | JwtDecodeResult.ok payload =>
      if payload.typ ≠ "access" then none
      else some ⟨payload.sub, payload.tid⟩
  | JwtDecodeResult.expired => none
  | JwtDecodeResult.invalid => none

/-- C10: verify_access_token yields user information exactly when the
token is validly signed, unexpired, and carries the type claim access;
in particular a validly signed unexpired token of any other type is
rejected. -/
theorem C10_access_token_type_gate (signFn : String → JwtClaims → String)
    (secret : String) (now : ℤ) (t : JwtToken) :
    (verify_access_token signFn secret now t).isSome = true ↔
      (t.sig = signFn secret t.claims ∧ now < t.claims.exp ∧
        t.claims.typ = "access") := by
  unfold verify_access_token jwtDecode
  by_cases h1 : t.sig = signFn secret t.claims
  · by_cases h2 : t.claims.exp ≤ now
    · simp [h1, h2, not_lt.mpr h2]
    · by_cases h3 : t.claims.typ = "access"
      · simp [h1, h2, h3, not_le.mp h2]
      · simp [h1, h2, h3]
  · simp [h1]
